import Mathlib

/-!
Verification of the Gym-Tracker backend (Go): in-memory workout store and
the request validation and mutation logic of the HTTP handlers.

The Go source is embedded shallowly:
  - `models.Workout`, `models.Exercise`, `models.Set` become Lean structures;
  - `strings.TrimSpace` becomes `goTrimSpace` over the character list;
  - `time.Parse("2006-01-02", s)` becomes the boolean `goParseDate`;
  - the store `map[int]models.Workout` becomes an association list with the
    same lookup, insert and erase behaviour; `time.Now()` becomes an explicit
    `now : Nat` argument threaded through each operation;
  - each handler becomes a function from store, clock, method and the decoded
    request to a response paired with the next store.

The weight of a set is `float64` in Go; it is modelled as `Int` because the
code only ever compares a weight with zero, and JSON cannot carry NaN, so the
sign comparison is all that matters.
-/

namespace GymTracker

/-- One performed set of an exercise: `models.Set`.  `reps` is a Go `int`,
`weight` an optional `float64` (see the header note on the `Int` model). -/
structure SetRec where
  reps : Int
  weight : Option Int
deriving DecidableEq, Repr

/-- One exercise of a workout: `models.Exercise`. -/
structure Exercise where
  name : String
  sets : List SetRec
deriving DecidableEq, Repr

/-- A stored workout record: `models.Workout`.  Timestamps are instants of a
discrete clock (`Nat`); the id is a Go `int`, modelled as `Int`. -/
structure Workout where
  id : Int
  title : String
  date : String
  notes : String
  exercises : List Exercise
  createdAt : Nat
  updatedAt : Nat
deriving DecidableEq, Repr

/-- The decoded body of `POST /workouts`: `models.CreateWorkoutRequest`. -/
structure CreateWorkoutRequest where
  title : String
  date : String
  notes : String
  exercises : List Exercise
deriving DecidableEq, Repr

/-- The decoded body of `PUT /workouts/id`: `models.UpdateWorkoutRequest`.
Absent JSON fields decode to `none` (nil pointers in Go). -/
structure UpdateWorkoutRequest where
  title : Option String
  date : Option String
  notes : Option String
  exercises : Option (List Exercise)
deriving DecidableEq, Repr

/-- The character class of Go `unicode.IsSpace`, the class trimmed by
`strings.TrimSpace`. -/
def isGoSpace (c : Char) : Bool :=
  c = ' ' || c = '\t' || c = '\n' || c.toNat = 11 || c.toNat = 12 || c = '\r' ||
  c.toNat = 0x85 || c.toNat = 0xA0 || c.toNat = 0x1680 ||
  (0x2000 ≤ c.toNat && c.toNat ≤ 0x200A) || c.toNat = 0x2028 || c.toNat = 0x2029 ||
  c.toNat = 0x202F || c.toNat = 0x205F || c.toNat = 0x3000

/-- Drop leading Go whitespace from a character list. -/
def ltrim (l : List Char) : List Char := l.dropWhile isGoSpace

/-- Drop trailing Go whitespace from a character list. -/
def rtrim (l : List Char) : List Char := (l.reverse.dropWhile isGoSpace).reverse

/-- Go `strings.TrimSpace`. -/
def goTrimSpace (s : String) : String := ⟨rtrim (ltrim s.data)⟩

/-- ASCII digit test, as used by Go `time.Parse` and `strconv.Atoi`. -/
def isDigit (c : Char) : Bool := '0' ≤ c && c ≤ '9'

/-- Numeric value of an ASCII digit. -/
def digitVal (c : Char) : Nat := c.toNat - 48

/-- Gregorian leap-year rule used by Go `time`. -/
def isLeapYear (y : Nat) : Bool := y % 4 = 0 && (y % 100 ≠ 0 || y % 400 = 0)

/-- Days in a month, as computed by Go `time` when range-checking a parsed day. -/
def daysInMonth (y m : Nat) : Nat :=
  if m = 2 then (if isLeapYear y then 29 else 28)
  else if m = 4 || m = 6 || m = 9 || m = 11 then 30
  else 31

/-- Go `time.Parse("2006-01-02", s)` succeeding: exactly ten characters, four
digit year, literal dash, two digit month in 1..12, literal dash, two digit
day in 1..daysInMonth. -/
def goParseDate (s : String) : Bool :=
  match s.data with
  | [y1, y2, y3, y4, '-', m1, m2, '-', d1, d2] =>
    if isDigit y1 && isDigit y2 && isDigit y3 && isDigit y4 &&
       isDigit m1 && isDigit m2 && isDigit d1 && isDigit d2 then
      let y := ((digitVal y1 * 10 + digitVal y2) * 10 + digitVal y3) * 10 + digitVal y4
      let m := digitVal m1 * 10 + digitVal m2
      let d := digitVal d1 * 10 + digitVal d2
      1 ≤ m && m ≤ 12 && 1 ≤ d && d ≤ daysInMonth y m
    else false
  | _ => false

/-- The inner loop of `validateExercises` over the sets of one exercise whose
trimmed name is `name`, with `j` the index of the first set of `sets` in the
original slice.  Returns the empty string when every set passes. -/
def validateSetsFrom (name : String) (j : Nat) : List SetRec → String
  | [] => ""
  | st :: rest =>
    if st.reps ≤ 0 then
      "reps must be > 0 for exercise: " ++ name ++ ", set index " ++ toString j
    else
      match st.weight with
      | some w =>
        if w < 0 then
          "weight must be >= 0 for exercise: " ++ name ++ ", set index " ++ toString j
        else validateSetsFrom name (j + 1) rest
      | none => validateSetsFrom name (j + 1) rest

/-- The loop of `validateExercises`, with `i` the index of the first element of
the remaining list in the original slice. -/
def validateExercisesFrom (i : Nat) : List Exercise → String
  | [] => ""
  | ex :: rest =>
    let name := goTrimSpace ex.name
    if name = "" then
      "exercise name is required (at index " ++ toString i ++ ")"
    else if ex.sets = [] then
      "exercise sets must have at least 1 set for: " ++ name
    else
      let r := validateSetsFrom name 0 ex.sets
      if r = "" then validateExercisesFrom (i + 1) rest else r

/-- `handlers.validateExercises`: the first failure message in list order, or
the empty string when all exercises pass; the empty list passes. -/
def validateExercises (exercises : List Exercise) : String :=
  validateExercisesFrom 0 exercises

/-- Lookup in the workout map (`s.workouts[id]`). -/
def mapGet (m : List (Int × Workout)) (id : Int) : Option Workout :=
  match m with
  | [] => none
  | (k, v) :: rest => if k = id then some v else mapGet rest id

/-- Insert or replace in the workout map (`s.workouts[id] = w`). -/
def mapSet (m : List (Int × Workout)) (id : Int) (w : Workout) : List (Int × Workout) :=
  match m with
  | [] => [(id, w)]
  | (k, v) :: rest => if k = id then (id, w) :: rest else (k, v) :: mapSet rest id w

/-- Erase from the workout map (`delete(s.workouts, id)`). -/
def mapDel (m : List (Int × Workout)) (id : Int) : List (Int × Workout) :=
  match m with
  | [] => []
  | (k, v) :: rest => if k = id then rest else (k, v) :: mapDel rest id

/-- `store.WorkoutStore`: the id counter and the workout map. -/
structure WorkoutStore where
  nextID : Int
  workouts : List (Int × Workout)
deriving DecidableEq, Repr

/-- `store.NewWorkoutStore`: empty map, first id 1. -/
def NewWorkoutStore : WorkoutStore := ⟨1, []⟩

/-- `WorkoutStore.Create`: overwrite the id with `nextID`, stamp both
timestamps with `now`, store, bump the counter, return the stored record. -/
def WorkoutStore.Create (s : WorkoutStore) (now : Nat) (w : Workout) :
    Workout × WorkoutStore :=
  let w' := { w with id := s.nextID, createdAt := now, updatedAt := now }
  (w', ⟨s.nextID + 1, mapSet s.workouts s.nextID w'⟩)

/-- `WorkoutStore.List`: the records in map order (iteration order of a Go map
is unspecified; the association-list order is one admissible order). -/
def WorkoutStore.List (s : WorkoutStore) : List Workout := s.workouts.map Prod.snd

/-- `WorkoutStore.Get`. -/
def WorkoutStore.Get (s : WorkoutStore) (id : Int) : Option Workout :=
  mapGet s.workouts id

/-- `WorkoutStore.Update`: look up, apply the transformation, stamp
`updatedAt` with `now`, write back; `none` models the `not found` error. -/
def WorkoutStore.Update (s : WorkoutStore) (now : Nat) (id : Int)
    (upd : Workout → Workout) : Option (Workout × WorkoutStore) :=
  match mapGet s.workouts id with
  | none => none
  | some cur =>
    let cur' := { upd cur with updatedAt := now }
    some (cur', ⟨s.nextID, mapSet s.workouts id cur'⟩)

/-- `WorkoutStore.Delete`: remove if present, report whether a removal
occurred. -/
def WorkoutStore.Delete (s : WorkoutStore) (id : Int) : Bool × WorkoutStore :=
  match mapGet s.workouts id with
  | none => (false, s)
  | some _ => (true, ⟨s.nextID, mapDel s.workouts id⟩)

/-- HTTP methods relevant to the router. -/
inductive Method where
  | GET | POST | PUT | DELETE | PATCH | HEAD | OPTIONS
deriving DecidableEq, Repr

/-- The body of a JSON response. -/
inductive Body where
  | errorMsg (msg : String)
  | workout (w : Workout)
  | workoutList (ws : List Workout)
  | statusOk
  | empty
deriving DecidableEq, Repr

/-- An HTTP response: status code and JSON body. -/
structure Response where
  status : Nat
  body : Body
deriving DecidableEq, Repr

/-- `HealthHandler.ServeHTTP`: writes 200 with the ok body whatever the
method is. -/
def HealthHandler.serve (_m : Method) : Response := ⟨200, Body.statusOk⟩

/-- Go `strconv.Atoi`: optional sign, then one or more ASCII digits making up
the whole string. -/
def goAtoi (s : String) : Option Int :=
  let digits : List Char → Option Nat := fun l =>
    if l = [] then none
    else if l.all isDigit then some (l.foldl (fun a c => a * 10 + digitVal c) 0)
    else none
  match s.data with
  | '+' :: rest => (digits rest).map Int.ofNat
  | '-' :: rest => (digits rest).map (fun n => -(n : Int))
  | l => (digits l).map Int.ofNat

/-- Go `strings.Split(s, "/")` over the character list: splitting the empty
string yields one empty segment. -/
def splitSlash : List Char → List (List Char)
  | [] => [[]]
  | c :: rest =>
    let r := splitSlash rest
    if c = '/' then [] :: r
    else
      match r with
      | [] => [[c]]
      | h :: t => (c :: h) :: t

/-- `handlers.parseWorkoutID`: trim slashes, split on slash, require exactly
the two segments `workouts` and a positive integer. -/
def parseWorkoutID (path : String) : Option Int :=
  let trimmed : List Char :=
    ((path.data.dropWhile (· = '/')).reverse.dropWhile (· = '/')).reverse
  match splitSlash trimmed with
  | [seg0, seg1] =>
    if String.mk seg0 = "workouts" then
      match goAtoi (String.mk seg1) with
      | some id => if id ≤ 0 then none else some id
      | none => none
    else none
  | _ => none

/-- The validation sequence of the create path (`WorkoutsHandler.ServeHTTP`,
POST case, after trimming): `some msg` is the BadRequest message, `none` is
acceptance.  Arguments are the already-trimmed title and date. -/
def createValidationError (title date : String) (exercises : List Exercise) :
    Option String :=
  if title = "" then some "title is required"
  else if date = "" then some "date is required (YYYY-MM-DD)"
  else if goParseDate date = false then some "date must be YYYY-MM-DD"
  else
    let msg := validateExercises exercises
    if msg = "" then none else some msg

/-- The merge of `WorkoutByIDHandler.ServeHTTP` (PUT case): each present patch
field overwrites the copy (trimmed where textual), then title and date are
trimmed once more before validation. -/
def mergePatch (cur : Workout) (req : UpdateWorkoutRequest) : Workout :=
  let u1 := match req.title with
    | some t => { cur with title := goTrimSpace t }
    | none => cur
  let u2 := match req.date with
    | some d => { u1 with date := goTrimSpace d }
    | none => u1
  let u3 := match req.notes with
    | some n => { u2 with notes := goTrimSpace n }
    | none => u2
  let u4 := match req.exercises with
    | some e => { u3 with exercises := e }
    | none => u3
  { u4 with title := goTrimSpace u4.title, date := goTrimSpace u4.date }

/-- The validation sequence of the update path, applied to the merged
candidate (whose title and date are already trimmed by `mergePatch`). -/
def updateValidationError (w : Workout) : Option String :=
  if w.title = "" then some "title cannot be empty"
  else if w.date = "" then some "date cannot be empty"
  else if goParseDate w.date = false then some "date must be YYYY-MM-DD"
  else
    let msg := validateExercises w.exercises
    if msg = "" then none else some msg

/-- The POST branch of `WorkoutsHandler.ServeHTTP` on a decoded request: trim,
validate, then build the candidate with zero id and timestamps and call
`Create`. -/
def handleCreate (s : WorkoutStore) (now : Nat) (req : CreateWorkoutRequest) :
    Response × WorkoutStore :=
  let title := goTrimSpace req.title
  let date := goTrimSpace req.date
  let notes := goTrimSpace req.notes
  match createValidationError title date req.exercises with
  | some msg => (⟨400, Body.errorMsg msg⟩, s)
  | none =>
    let wk : Workout := ⟨0, title, date, notes, req.exercises, 0, 0⟩
    let res := s.Create now wk
    (⟨201, Body.workout res.1⟩, res.2)

/-- The PUT branch of `WorkoutByIDHandler.ServeHTTP` on a decoded request:
fetch without mutating, merge on a copy, validate before any write, then
commit through `Update` with a function returning the precomputed candidate. -/
def handleUpdate (s : WorkoutStore) (now : Nat) (id : Int)
    (req : UpdateWorkoutRequest) : Response × WorkoutStore :=
  match s.Get id with
  | none => (⟨404, Body.errorMsg "Workout not found"⟩, s)
  | some cur =>
    let updated := mergePatch cur req
    match updateValidationError updated with
    | some msg => (⟨400, Body.errorMsg msg⟩, s)
    | none =>
      match s.Update now id (fun _ => updated) with
      | none => (⟨404, Body.errorMsg "Workout not found"⟩, s)
      | some (final, s') => (⟨200, Body.workout final⟩, s')

/-- `WorkoutsHandler.ServeHTTP`: GET lists, POST creates (given the decode
outcome of the body), anything else is 405. -/
def WorkoutsHandler.serve (s : WorkoutStore) (now : Nat) (m : Method)
    (decoded : Option CreateWorkoutRequest) : Response × WorkoutStore :=
  match m with
  | Method.GET => (⟨200, Body.workoutList s.List⟩, s)
  | Method.POST =>
    match decoded with
    | none => (⟨400, Body.errorMsg "Invalid JSON"⟩, s)
    | some req => handleCreate s now req
  | _ => (⟨405, Body.errorMsg "Method not allowed"⟩, s)

/-- `WorkoutByIDHandler.ServeHTTP`: parse the id from the path, then dispatch
GET, PUT (given the decode outcome of the body) and DELETE; anything else on a
parsable path is 405. -/
def WorkoutByIDHandler.serve (s : WorkoutStore) (now : Nat) (path : String)
    (m : Method) (decoded : Option UpdateWorkoutRequest) :
    Response × WorkoutStore :=
  match parseWorkoutID path with
  | none => (⟨404, Body.errorMsg "Not found"⟩, s)
  | some id =>
    match m with
    | Method.GET =>
      match s.Get id with
      | none => (⟨404, Body.errorMsg "Workout not found"⟩, s)
      | some wk => (⟨200, Body.workout wk⟩, s)
    | Method.PUT =>
      match decoded with
      | none => (⟨400, Body.errorMsg "Invalid JSON"⟩, s)
      | some req => handleUpdate s now id req
    | Method.DELETE =>
      let res := s.Delete id
      if res.1 then (⟨204, Body.empty⟩, res.2)
      else (⟨404, Body.errorMsg "Workout not found"⟩, s)
    | _ => (⟨405, Body.errorMsg "Method not allowed"⟩, s)

/-- One mutating operation of the API against one store: a create at the
store level, an update through the PUT handler logic, or a delete. -/
inductive StoreOp where
  | create (now : Nat) (w : Workout)
  | update (now : Nat) (id : Int) (req : UpdateWorkoutRequest)
  | delete (id : Int)

/-- The store after one operation. -/
def applyOp (s : WorkoutStore) : StoreOp → WorkoutStore
  | StoreOp.create now w => (s.Create now w).2
  | StoreOp.update now id req => (handleUpdate s now id req).2
  | StoreOp.delete id => (s.Delete id).2

/-- The store after a sequence of operations. -/
def runOps (s : WorkoutStore) (ops : List StoreOp) : WorkoutStore :=
  ops.foldl applyOp s

/-- The ids returned by the create operations of a sequence, in order,
starting from store `s`. -/
def issuedFrom (s : WorkoutStore) : List StoreOp → List Int
  | [] => []
  | op :: rest =>
    match op with
    | StoreOp.create now w => (s.Create now w).1.id :: issuedFrom (applyOp s (StoreOp.create now w)) rest
    | _ => issuedFrom (applyOp s op) rest

/-- The ids returned by the create operations of a sequence run against a
fresh store. -/
def issuedIds (ops : List StoreOp) : List Int := issuedFrom NewWorkoutStore ops

/-- The number of create operations in a sequence. -/
def createCount : List StoreOp → Nat
  | [] => 0
  | StoreOp.create _ _ :: rest => createCount rest + 1
  | _ :: rest => createCount rest

/-- The first `some` produced by `f` along a list. -/
def firstSome {α β : Type} (f : α → Option β) : List α → Option β
  | [] => none
  | a :: l =>
    match f a with
    | some b => some b
    | none => firstSome f l

/-- Spec formulation of the per-set checks, for the set at position `j` of the
exercise whose trimmed name is `name`: reps must be positive, a present weight
must be non-negative, first failure wins. -/
def specSetError (name : String) (j : Nat) (st : SetRec) : Option String :=
  if st.reps ≤ 0 then
    some ("reps must be > 0 for exercise: " ++ name ++ ", set index " ++ toString j)
  else
    match st.weight with
    | some w =>
      if w < 0 then
        some ("weight must be >= 0 for exercise: " ++ name ++ ", set index " ++ toString j)
      else none
    | none => none

/-- Spec formulation of the checks on the exercise at position `i`: non-blank
trimmed name, at least one set, then the first failing set in order. -/
def specExerciseError (i : Nat) (ex : Exercise) : Option String :=
  if goTrimSpace ex.name = "" then
    some ("exercise name is required (at index " ++ toString i ++ ")")
  else if ex.sets.length = 0 then
    some ("exercise sets must have at least 1 set for: " ++ goTrimSpace ex.name)
  else
    firstSome (fun p => specSetError (goTrimSpace ex.name) p.1 p.2) (ex.sets.enum)

/-- Spec formulation of exercise validation: the first failure over the
position-indexed exercises, `none` when every exercise passes. -/
def specFirstError (exercises : List Exercise) : Option String :=
  firstSome (fun p => specExerciseError p.1 p.2) exercises.enum

/-! ### Helper lemmas -/

lemma dropWhile_dropWhile (p : Char → Bool) (l : List Char) :
    (l.dropWhile p).dropWhile p = l.dropWhile p := by
  induction l with
  | nil => rfl
  | cons a l ih =>
    by_cases h : p a
    · simp [List.dropWhile_cons, h, ih]
    · simp [List.dropWhile_cons, h]

lemma head_not_p_of_dropWhile_eq (p : Char → Bool) (a : Char) (t : List Char)
    (h : (a :: t).dropWhile p = a :: t) : p a = false := by
  by_cases hp : p a
  · exfalso
    rw [List.dropWhile_cons, if_pos hp] at h
    have hle : (t.dropWhile p).length ≤ t.length :=
      (List.dropWhile_suffix p).length_le
    rw [h] at hle
    simp at hle
  · simpa using hp

lemma dropWhile_eq_self_of_initial (p : Char → Bool) (l₁ l₂ : List Char)
    (hpre : l₁ <+: l₂) (h : l₂.dropWhile p = l₂) : l₁.dropWhile p = l₁ := by
  cases l₁ with
  | nil => rfl
  | cons a t =>
    obtain ⟨r, hr⟩ := hpre
    have ha : p a = false := by
      subst hr
      exact head_not_p_of_dropWhile_eq p a (t ++ r) h
    simp [List.dropWhile_cons, ha]

lemma rtrim_initial (l : List Char) : rtrim l <+: l := by
  unfold rtrim
  have h := List.dropWhile_suffix (l := l.reverse) isGoSpace
  rw [← List.reverse_prefix] at h
  simpa using h

lemma ltrim_idem (l : List Char) : ltrim (ltrim l) = ltrim l :=
  dropWhile_dropWhile isGoSpace l

lemma rtrim_idem (l : List Char) : rtrim (rtrim l) = rtrim l := by
  unfold rtrim
  simp [dropWhile_dropWhile]

lemma ltrim_rtrim_ltrim (l : List Char) :
    ltrim (rtrim (ltrim l)) = rtrim (ltrim l) := by
  unfold ltrim
  exact dropWhile_eq_self_of_initial isGoSpace _ _ (rtrim_initial (ltrim l))
    (dropWhile_dropWhile isGoSpace l)

lemma goTrimSpace_idem (s : String) :
    goTrimSpace (goTrimSpace s) = goTrimSpace s := by
  unfold goTrimSpace
  have hdata : (String.mk (rtrim (ltrim s.data))).data = rtrim (ltrim s.data) := rfl
  rw [hdata, ltrim_rtrim_ltrim, rtrim_idem]

lemma mapGet_mapSet_self (m : List (Int × Workout)) (id : Int) (w : Workout) :
    mapGet (mapSet m id w) id = some w := by
  induction m with
  | nil => simp [mapSet, mapGet]
  | cons kv rest ih =>
    obtain ⟨k, v⟩ := kv
    by_cases h : k = id
    · simp [mapSet, mapGet, h]
    · simp [mapSet, mapGet, h, ih]

lemma nextID_Create (s : WorkoutStore) (now : Nat) (w : Workout) :
    (s.Create now w).2.nextID = s.nextID + 1 := rfl

lemma nextID_handleUpdate (s : WorkoutStore) (now : Nat) (id : Int)
    (req : UpdateWorkoutRequest) :
    (handleUpdate s now id req).2.nextID = s.nextID := by
  unfold handleUpdate
  cases hg : s.Get id with
  | none => rfl
  | some cur =>
    simp only
    cases hv : updateValidationError (mergePatch cur req) with
    | some msg => rfl
    | none =>
      simp only
      unfold WorkoutStore.Update
      cases hm : mapGet s.workouts id with
      | none => rfl
      | some c => rfl

lemma nextID_Delete (s : WorkoutStore) (id : Int) :
    (s.Delete id).2.nextID = s.nextID := by
  unfold WorkoutStore.Delete
  cases hm : mapGet s.workouts id with
  | none => rfl
  | some c => rfl

lemma nextID_applyOp (s : WorkoutStore) (op : StoreOp) :
    (applyOp s op).nextID =
      match op with
      | StoreOp.create _ _ => s.nextID + 1
      | _ => s.nextID := by
  cases op with
  | create now w => exact nextID_Create s now w
  | update now id req => exact nextID_handleUpdate s now id req
  | delete id => exact nextID_Delete s id

lemma issuedFrom_eq (ops : List StoreOp) : ∀ s : WorkoutStore,
    issuedFrom s ops =
      (List.range (createCount ops)).map (fun i : Nat => s.nextID + (i : Int)) := by
  induction ops with
  | nil => intro s; simp [issuedFrom, createCount]
  | cons op rest ih =>
    intro s
    cases op with
    | create now w =>
      have hid : (s.Create now w).1.id = s.nextID := rfl
      have hnext : (applyOp s (StoreOp.create now w)).nextID = s.nextID + 1 :=
        nextID_Create s now w
      simp only [issuedFrom, createCount, hid, ih, hnext]
      rw [List.range_succ_eq_map]
      simp only [List.map_cons, List.map_map]
      refine List.cons_eq_cons.mpr ⟨by simp, ?_⟩
      apply List.map_congr_left
      intro a _
      simp only [Function.comp]
      push_cast
      ring
    | update now id req =>
      have hnext : (applyOp s (StoreOp.update now id req)).nextID = s.nextID :=
        nextID_handleUpdate s now id req
      simp only [issuedFrom, createCount, ih, hnext]
    | delete id =>
      have hnext : (applyOp s (StoreOp.delete id)).nextID = s.nextID :=
        nextID_Delete s id
      simp only [issuedFrom, createCount, ih, hnext]
lemma append_ne_empty_left (a b : String) (h : a ≠ "") : a ++ b ≠ "" := by
  intro hc
  apply h
  have hlen : a.length + b.length = 0 := by
    rw [← String.length_append a b, hc]
    rfl
  have hd : a.data.length = 0 := by
    have : a.length = 0 := by omega
    exact this
  have hnil : a.data = [] := List.length_eq_zero.mp hd
  cases a
  simp_all

lemma msg3_ne (a b c d : String) (h : a ≠ "") : a ++ b ++ c ++ d ≠ "" :=
  append_ne_empty_left _ _ (append_ne_empty_left _ _ (append_ne_empty_left _ _ h))

lemma specSetError_some_ne (name : String) (j : Nat) (st : SetRec) (m : String)
    (h : specSetError name j st = some m) : m ≠ "" := by
  unfold specSetError at h
  split_ifs at h with h1
  · have hm := Option.some_inj.mp h
    subst hm
    exact msg3_ne _ _ _ _ (by decide)
  · cases hw : st.weight with
    | none => simp [hw] at h
    | some wv =>
      simp only [hw] at h
      split_ifs at h with h2
      · have hm := Option.some_inj.mp h
        subst hm
        exact msg3_ne _ _ _ _ (by decide)

lemma firstSome_ne_empty {α : Type} (g : α → Option String)
    (hg : ∀ a m, g a = some m → m ≠ "") (l : List α) :
    ∀ m : String, firstSome g l = some m → m ≠ "" := by
  induction l with
  | nil => intro m h; cases h
  | cons a t ih =>
    intro m h
    unfold firstSome at h
    cases hga : g a with
    | some b =>
      simp only [hga] at h
      have hbm : b = m := Option.some_inj.mp h
      subst hbm
      exact hg a b hga
    | none =>
      simp only [hga] at h
      exact ih m h

lemma specExerciseError_some_ne (i : Nat) (ex : Exercise) (m : String)
    (h : specExerciseError i ex = some m) : m ≠ "" := by
  unfold specExerciseError at h
  split_ifs at h with h1 h2
  · have hm := Option.some_inj.mp h
    subst hm
    exact append_ne_empty_left _ _
      (append_ne_empty_left "exercise name is required (at index " _ (by decide))
  · have hm := Option.some_inj.mp h
    subst hm
    exact append_ne_empty_left "exercise sets must have at least 1 set for: " _ (by decide)
  · exact firstSome_ne_empty _ (fun p mm hp => specSetError_some_ne _ p.1 p.2 mm hp) _ m h

lemma validateSetsFrom_eq (name : String) (sets : List SetRec) : ∀ j : Nat,
    validateSetsFrom name j sets =
      (firstSome (fun p => specSetError name p.1 p.2) (sets.enumFrom j)).getD "" := by
  induction sets with
  | nil => intro j; rfl
  | cons st rest ih =>
    intro j
    have he : (st :: rest).enumFrom j = (j, st) :: rest.enumFrom (j + 1) := by
      simp [List.enumFrom]
    rw [he]
    by_cases h1 : st.reps ≤ 0
    · have hf : specSetError name j st =
          some ("reps must be > 0 for exercise: " ++ name ++ ", set index " ++ toString j) := by
        simp [specSetError, h1]
      simp [validateSetsFrom, firstSome, h1, hf]
    · cases hw : st.weight with
      | none =>
        have hf : specSetError name j st = none := by
          simp [specSetError, h1, hw]
        simp [validateSetsFrom, firstSome, h1, hw, hf, ih]
      | some wv =>
        by_cases h2 : wv < 0
        · have hf : specSetError name j st =
              some ("weight must be >= 0 for exercise: " ++ name ++ ", set index " ++ toString j) := by
            simp [specSetError, h1, hw, h2]
          simp [validateSetsFrom, firstSome, h1, hw, h2, hf]
        · have hf : specSetError name j st = none := by
            simp [specSetError, h1, hw, h2]
          simp [validateSetsFrom, firstSome, h1, hw, h2, hf, ih]

lemma validateExercisesFrom_eq (exs : List Exercise) : ∀ i : Nat,
    validateExercisesFrom i exs =
      (firstSome (fun p => specExerciseError p.1 p.2) (exs.enumFrom i)).getD "" := by
  induction exs with
  | nil => intro i; rfl
  | cons ex rest ih =>
    intro i
    have he : (ex :: rest).enumFrom i = (i, ex) :: rest.enumFrom (i + 1) := by
      simp [List.enumFrom]
    rw [he]
    by_cases h1 : goTrimSpace ex.name = ""
    · have hf : specExerciseError i ex =
          some ("exercise name is required (at index " ++ toString i ++ ")") := by
        simp [specExerciseError, h1]
      simp [validateExercisesFrom, firstSome, h1, hf]
    · by_cases h2 : ex.sets = []
      · have hf : specExerciseError i ex =
            some ("exercise sets must have at least 1 set for: " ++ goTrimSpace ex.name) := by
          simp [specExerciseError, h1, h2]
        simp [validateExercisesFrom, firstSome, h1, h2, hf]
      · have hlen : ¬ ex.sets.length = 0 := by
          simpa [List.length_eq_zero] using h2
        have hr := validateSetsFrom_eq (goTrimSpace ex.name) ex.sets 0
        cases hfs : firstSome (fun p => specSetError (goTrimSpace ex.name) p.1 p.2)
            (ex.sets.enumFrom 0) with
        | none =>
          have hf : specExerciseError i ex = none := by
            unfold specExerciseError
            rw [if_neg h1, if_neg hlen]
            exact hfs
          have hrr : validateSetsFrom (goTrimSpace ex.name) 0 ex.sets = "" := by
            rw [hr, hfs]
            rfl
          simp [validateExercisesFrom, firstSome, h1, h2, hf, hrr, ih]
        | some m =>
          have hm : m ≠ "" :=
            firstSome_ne_empty _
              (fun p mm hp => specSetError_some_ne _ p.1 p.2 mm hp) _ m hfs
          have hf : specExerciseError i ex = some m := by
            unfold specExerciseError
            rw [if_neg h1, if_neg hlen]
            exact hfs
          have hrr : validateSetsFrom (goTrimSpace ex.name) 0 ex.sets = m := by
            rw [hr, hfs]
            rfl
          simp [validateExercisesFrom, firstSome, h1, h2, hf, hrr, hm]

lemma mergePatch_id (cur : Workout) (req : UpdateWorkoutRequest) :
    (mergePatch cur req).id = cur.id := by
  unfold mergePatch
  cases req.title <;> cases req.date <;> cases req.notes <;> cases req.exercises <;> rfl

lemma mergePatch_createdAt (cur : Workout) (req : UpdateWorkoutRequest) :
    (mergePatch cur req).createdAt = cur.createdAt := by
  unfold mergePatch
  cases req.title <;> cases req.date <;> cases req.notes <;> cases req.exercises <;> rfl

lemma mergePatch_title_some (cur : Workout) (req : UpdateWorkoutRequest)
    (t : String) (h : req.title = some t) :
    (mergePatch cur req).title = goTrimSpace t := by
  unfold mergePatch
  rw [h]
  cases req.date <;> cases req.notes <;> cases req.exercises <;>
    simp [goTrimSpace_idem]

lemma mergePatch_title_none (cur : Workout) (req : UpdateWorkoutRequest)
    (h : req.title = none) (htrim : goTrimSpace cur.title = cur.title) :
    (mergePatch cur req).title = cur.title := by
  unfold mergePatch
  rw [h]
  cases req.date <;> cases req.notes <;> cases req.exercises <;> simp [htrim]

lemma mergePatch_date_some (cur : Workout) (req : UpdateWorkoutRequest)
    (d : String) (h : req.date = some d) :
    (mergePatch cur req).date = goTrimSpace d := by
  unfold mergePatch
  rw [h]
  cases req.title <;> cases req.notes <;> cases req.exercises <;>
    simp [goTrimSpace_idem]

lemma mergePatch_date_none (cur : Workout) (req : UpdateWorkoutRequest)
    (h : req.date = none) (htrim : goTrimSpace cur.date = cur.date) :
    (mergePatch cur req).date = cur.date := by
  unfold mergePatch
  rw [h]
  cases req.title <;> cases req.notes <;> cases req.exercises <;> simp [htrim]

lemma mergePatch_notes_some (cur : Workout) (req : UpdateWorkoutRequest)
    (n : String) (h : req.notes = some n) :
    (mergePatch cur req).notes = goTrimSpace n := by
  unfold mergePatch
  rw [h]
  cases req.title <;> cases req.date <;> cases req.exercises <;> rfl

lemma mergePatch_notes_none (cur : Workout) (req : UpdateWorkoutRequest)
    (h : req.notes = none) :
    (mergePatch cur req).notes = cur.notes := by
  unfold mergePatch
  rw [h]
  cases req.title <;> cases req.date <;> cases req.exercises <;> rfl

lemma mergePatch_exercises_some (cur : Workout) (req : UpdateWorkoutRequest)
    (e : List Exercise) (h : req.exercises = some e) :
    (mergePatch cur req).exercises = e := by
  unfold mergePatch
  rw [h]

lemma mergePatch_exercises_none (cur : Workout) (req : UpdateWorkoutRequest)
    (h : req.exercises = none) :
    (mergePatch cur req).exercises = cur.exercises := by
  unfold mergePatch
  rw [h]
  cases req.title <;> cases req.date <;> cases req.notes <;> rfl

lemma mergePatch_none_all (cur : Workout)
    (htrimT : goTrimSpace cur.title = cur.title)
    (htrimD : goTrimSpace cur.date = cur.date) :
    mergePatch cur ⟨none, none, none, none⟩ = cur := by
  unfold mergePatch
  simp [htrimT, htrimD]

lemma handleUpdate_invalid (s : WorkoutStore) (now : Nat) (id : Int)
    (req : UpdateWorkoutRequest) (cur : Workout) (msg : String)
    (hget : s.Get id = some cur)
    (hval : updateValidationError (mergePatch cur req) = some msg) :
    handleUpdate s now id req = (⟨400, Body.errorMsg msg⟩, s) := by
  simp only [handleUpdate, hget, hval]

lemma handleUpdate_valid (s : WorkoutStore) (now : Nat) (id : Int)
    (req : UpdateWorkoutRequest) (cur : Workout)
    (hget : s.Get id = some cur)
    (hval : updateValidationError (mergePatch cur req) = none) :
    handleUpdate s now id req =
      (⟨200, Body.workout { mergePatch cur req with updatedAt := now }⟩,
       ⟨s.nextID, mapSet s.workouts id { mergePatch cur req with updatedAt := now }⟩) := by
  have hm : mapGet s.workouts id = some cur := hget
  simp only [handleUpdate, hget, hval, WorkoutStore.Update, hm]

lemma createValidationError_none (title date : String) (exs : List Exercise)
    (h : createValidationError title date exs = none) :
    title ≠ "" ∧ date ≠ "" ∧ goParseDate date = true ∧ validateExercises exs = "" := by
  unfold createValidationError at h
  by_cases h1 : title = ""
  · simp [h1] at h
  · by_cases h2 : date = ""
    · simp [h1, h2] at h
    · by_cases h3 : goParseDate date = false
      · simp [h1, h2, h3] at h
      · by_cases h4 : validateExercises exs = ""
        · exact ⟨h1, h2, by simpa using h3, h4⟩
        · simp [h1, h2, h3, h4] at h

lemma validateExercisesFrom_names (exs : List Exercise) : ∀ i : Nat,
    validateExercisesFrom i exs = "" →
    ∀ ex ∈ exs, goTrimSpace ex.name ≠ "" := by
  induction exs with
  | nil => intro i _ ex hx; cases hx
  | cons e rest ih =>
    intro i h ex hx
    unfold validateExercisesFrom at h
    by_cases hn : goTrimSpace e.name = ""
    · rw [if_pos hn] at h
      exact absurd h
        (append_ne_empty_left _ _
          (append_ne_empty_left "exercise name is required (at index " _ (by decide)))
    · rw [if_neg hn] at h
      by_cases hs : e.sets = []
      · rw [if_pos hs] at h
        exact absurd h
          (append_ne_empty_left "exercise sets must have at least 1 set for: " _ (by decide))
      · rw [if_neg hs] at h
        rcases List.mem_cons.mp hx with rfl | hx2
        · exact hn
        · by_cases hr : validateSetsFrom (goTrimSpace e.name) 0 e.sets = ""
          · rw [if_pos hr] at h
            exact ih (i + 1) h ex hx2
          · rw [if_neg hr] at h
            exact absurd h hr

lemma nextID_pos_runOps (ops : List StoreOp) : ∀ s : WorkoutStore,
    0 < s.nextID → 0 < (runOps s ops).nextID := by
  induction ops with
  | nil => intro s hs; exact hs
  | cons op rest ih =>
    intro s hs
    have hstep : runOps s (op :: rest) = runOps (applyOp s op) rest := rfl
    rw [hstep]
    apply ih
    have h := nextID_applyOp s op
    cases op <;> simp only at h <;> omega

/-! ### Claim theorems -/

/-- C1: on an update of an existing record, if validation of the fully merged
candidate fails with message `msg`, the handler returns BadRequest (400) with
that message and the store is returned exactly as it was: no write occurs. -/
theorem update_validation_atomic (s : WorkoutStore) (now : Nat) (id : Int)
    (req : UpdateWorkoutRequest) (cur : Workout) (msg : String)
    (hget : s.Get id = some cur)
    (hval : updateValidationError (mergePatch cur req) = some msg) :
    (handleUpdate s now id req).1.status = 400 ∧
    (handleUpdate s now id req).1.body = Body.errorMsg msg ∧
    (handleUpdate s now id req).2 = s := by
  rw [handleUpdate_invalid s now id req cur msg hget hval]
  exact ⟨rfl, rfl, rfl⟩

/-- Witness for C1: a concrete store holding record 1 and a patch whose title
trims to empty is rejected with 400 and leaves the store untouched. -/
theorem update_validation_atomic_witness :
    (handleUpdate ⟨2, [(1, ⟨1, "Push", "2025-01-01", "", [], 0, 0⟩)]⟩ 4 1
        ⟨some " ", none, none, none⟩).1.status = 400 ∧
    (handleUpdate ⟨2, [(1, ⟨1, "Push", "2025-01-01", "", [], 0, 0⟩)]⟩ 4 1
        ⟨some " ", none, none, none⟩).1.body = Body.errorMsg "title cannot be empty" ∧
    (handleUpdate ⟨2, [(1, ⟨1, "Push", "2025-01-01", "", [], 0, 0⟩)]⟩ 4 1
        ⟨some " ", none, none, none⟩).2 =
      ⟨2, [(1, ⟨1, "Push", "2025-01-01", "", [], 0, 0⟩)]⟩ :=
  update_validation_atomic _ 4 1 ⟨some " ", none, none, none⟩
    ⟨1, "Push", "2025-01-01", "", [], 0, 0⟩ "title cannot be empty"
    (by decide) (by decide)

/-- C2: over any sequence of create, update and delete operations run against
a fresh store, the ids returned by the create operations are exactly
1, 2, 3, ... in order: strictly increasing from 1 and never reused, deletions
notwithstanding. -/
theorem create_ids_strictly_increasing_never_reused (ops : List StoreOp) :
    issuedIds ops = (List.range (createCount ops)).map (fun i : Nat => (1 : Int) + i) ∧
    (issuedIds ops).Chain' (· < ·) ∧
    (issuedIds ops).Nodup := by
  have h1 : issuedIds ops =
      (List.range (createCount ops)).map (fun i : Nat => (1 : Int) + i) :=
    issuedFrom_eq ops NewWorkoutStore
  have hp : ((List.range (createCount ops)).map
      (fun i : Nat => (1 : Int) + i)).Pairwise (· < ·) := by
    rw [List.pairwise_map]
    exact (List.pairwise_lt_range _).imp (by intro a b hab; omega)
  refine ⟨h1, ?_, ?_⟩
  · rw [h1]
    exact hp.chain'
  · rw [h1]
    exact hp.imp ne_of_lt

/-- C4: `Create` is total (it never fails), overwrites any caller-supplied id
with the next sequential id, stamps both timestamps with the same instant,
stores the record, returns it, and bumps the counter; an immediate `Get` on
the returned id finds that record, whose id is positive whenever the counter
was. -/
theorem create_total_spec (s : WorkoutStore) (now : Nat) (w : Workout)
    (hpos : 0 < s.nextID) :
    (s.Create now w).1.id = s.nextID ∧
    (s.Create now w).1.createdAt = now ∧
    (s.Create now w).1.updatedAt = now ∧
    (s.Create now w).1.title = w.title ∧
    (s.Create now w).1.date = w.date ∧
    (s.Create now w).1.notes = w.notes ∧
    (s.Create now w).1.exercises = w.exercises ∧
    (s.Create now w).2.Get ((s.Create now w).1.id) = some (s.Create now w).1 ∧
    0 < (s.Create now w).1.id ∧
    (s.Create now w).1.createdAt = (s.Create now w).1.updatedAt ∧
    (s.Create now w).2.nextID = s.nextID + 1 := by
  refine ⟨rfl, rfl, rfl, rfl, rfl, rfl, rfl, ?_, hpos, rfl, rfl⟩
  show mapGet (mapSet s.workouts s.nextID _) s.nextID = _
  exact mapGet_mapSet_self s.workouts s.nextID _

/-- Witness for C4 at a fresh store and a candidate carrying a bogus id. -/
theorem create_total_spec_witness :
    (NewWorkoutStore.Create 7 ⟨99, "T", "2025-01-01", "n", [], 3, 4⟩).1.id = NewWorkoutStore.nextID ∧
    (NewWorkoutStore.Create 7 ⟨99, "T", "2025-01-01", "n", [], 3, 4⟩).1.createdAt = 7 ∧
    (NewWorkoutStore.Create 7 ⟨99, "T", "2025-01-01", "n", [], 3, 4⟩).1.updatedAt = 7 ∧
    (NewWorkoutStore.Create 7 ⟨99, "T", "2025-01-01", "n", [], 3, 4⟩).1.title = "T" ∧
    (NewWorkoutStore.Create 7 ⟨99, "T", "2025-01-01", "n", [], 3, 4⟩).1.date = "2025-01-01" ∧
    (NewWorkoutStore.Create 7 ⟨99, "T", "2025-01-01", "n", [], 3, 4⟩).1.notes = "n" ∧
    (NewWorkoutStore.Create 7 ⟨99, "T", "2025-01-01", "n", [], 3, 4⟩).1.exercises = [] ∧
    (NewWorkoutStore.Create 7 ⟨99, "T", "2025-01-01", "n", [], 3, 4⟩).2.Get
        ((NewWorkoutStore.Create 7 ⟨99, "T", "2025-01-01", "n", [], 3, 4⟩).1.id) =
      some (NewWorkoutStore.Create 7 ⟨99, "T", "2025-01-01", "n", [], 3, 4⟩).1 ∧
    0 < (NewWorkoutStore.Create 7 ⟨99, "T", "2025-01-01", "n", [], 3, 4⟩).1.id ∧
    (NewWorkoutStore.Create 7 ⟨99, "T", "2025-01-01", "n", [], 3, 4⟩).1.createdAt =
      (NewWorkoutStore.Create 7 ⟨99, "T", "2025-01-01", "n", [], 3, 4⟩).1.updatedAt ∧
    (NewWorkoutStore.Create 7 ⟨99, "T", "2025-01-01", "n", [], 3, 4⟩).2.nextID =
      NewWorkoutStore.nextID + 1 :=
  create_total_spec NewWorkoutStore 7 ⟨99, "T", "2025-01-01", "n", [], 3, 4⟩ (by decide)

/-- C5: `validateExercises` agrees everywhere with the specification-level
first-failure search `specFirstError` (exercises checked in list order, blank
trimmed name failing with the index, empty set list failing with the exercise
name, non-positive reps or a present negative weight failing with the exercise
name and set index); acceptance coincides with the absence of a spec failure,
and the empty list is accepted. -/
theorem exercise_validation_first_failure :
    (∀ exs : List Exercise, validateExercises exs = (specFirstError exs).getD "") ∧
    (∀ exs : List Exercise, (validateExercises exs = "" ↔ specFirstError exs = none)) ∧
    validateExercises [] = "" := by
  have hmain : ∀ exs : List Exercise,
      validateExercises exs = (specFirstError exs).getD "" := by
    intro exs
    exact validateExercisesFrom_eq exs 0
  refine ⟨hmain, ?_, rfl⟩
  intro exs
  constructor
  · intro h
    cases hfe : specFirstError exs with
    | none => rfl
    | some m =>
      have hm : m ≠ "" :=
        firstSome_ne_empty _
          (fun p mm hp => specExerciseError_some_ne p.1 p.2 mm hp) _ m hfe
      rw [hmain exs, hfe] at h
      exact absurd h hm
  · intro h
    rw [hmain exs, h]
    rfl

/-- C3: on a successful update of a stored record (whose title and date are
trimmed, as every record written by the handlers is, and at an instant later
than its last modification), each patch field present overwrites the stored
field (trimmed where textual, the exercise list replaced wholesale), each
absent field is unchanged, id and createdAt are preserved, and updatedAt
strictly increases. -/
theorem update_partial_merge (s : WorkoutStore) (now : Nat) (id : Int)
    (req : UpdateWorkoutRequest) (cur : Workout)
    (hget : s.Get id = some cur)
    (hval : updateValidationError (mergePatch cur req) = none)
    (htrimT : goTrimSpace cur.title = cur.title)
    (htrimD : goTrimSpace cur.date = cur.date)
    (htime : cur.updatedAt < now) :
    ∃ final s',
      handleUpdate s now id req = (⟨200, Body.workout final⟩, s') ∧
      s'.Get id = some final ∧
      final.id = cur.id ∧
      final.createdAt = cur.createdAt ∧
      cur.updatedAt < final.updatedAt ∧
      (∀ t, req.title = some t → final.title = goTrimSpace t) ∧
      (req.title = none → final.title = cur.title) ∧
      (∀ d, req.date = some d → final.date = goTrimSpace d) ∧
      (req.date = none → final.date = cur.date) ∧
      (∀ n, req.notes = some n → final.notes = goTrimSpace n) ∧
      (req.notes = none → final.notes = cur.notes) ∧
      (∀ e, req.exercises = some e → final.exercises = e) ∧
      (req.exercises = none → final.exercises = cur.exercises) := by
  refine ⟨{ mergePatch cur req with updatedAt := now },
    ⟨s.nextID, mapSet s.workouts id { mergePatch cur req with updatedAt := now }⟩,
    handleUpdate_valid s now id req cur hget hval, ?_, ?_, ?_, ?_, ?_, ?_, ?_, ?_, ?_, ?_, ?_, ?_⟩
  · show mapGet (mapSet s.workouts id _) id = _
    exact mapGet_mapSet_self s.workouts id _
  · exact mergePatch_id cur req
  · exact mergePatch_createdAt cur req
  · exact htime
  · intro t ht
    exact mergePatch_title_some cur req t ht
  · intro ht
    exact mergePatch_title_none cur req ht htrimT
  · intro d hd
    exact mergePatch_date_some cur req d hd
  · intro hd
    exact mergePatch_date_none cur req hd htrimD
  · intro n hn
    exact mergePatch_notes_some cur req n hn
  · intro hn
    exact mergePatch_notes_none cur req hn
  · intro e he
    exact mergePatch_exercises_some cur req e he
  · intro he
    exact mergePatch_exercises_none cur req he

/-- Witness for C3: patching only notes of a stored record succeeds. -/
theorem update_partial_merge_witness :
    (handleUpdate ⟨2, [(1, ⟨1, "Push", "2025-01-01", "", [], 0, 0⟩)]⟩ 9 1
        ⟨none, none, some " hi ", none⟩).1.status = 200 := by
  obtain ⟨final, s', heq, -⟩ :=
    update_partial_merge ⟨2, [(1, ⟨1, "Push", "2025-01-01", "", [], 0, 0⟩)]⟩ 9 1
      ⟨none, none, some " hi ", none⟩ ⟨1, "Push", "2025-01-01", "", [], 0, 0⟩
      (by decide) (by decide) (by decide) (by decide) (by decide)
  rw [heq]

/-- C10: an update whose body decodes with no fields present (the empty JSON
object) on a stored valid record succeeds with 200, leaves id, title, date,
notes, exercises and createdAt unchanged, and refreshes updatedAt to the
current instant, strictly later than before. -/
theorem empty_patch_refreshes_updatedAt (s : WorkoutStore) (now : Nat)
    (id : Int) (cur : Workout)
    (hget : s.Get id = some cur)
    (htrimT : goTrimSpace cur.title = cur.title)
    (htrimD : goTrimSpace cur.date = cur.date)
    (hval : updateValidationError cur = none)
    (htime : cur.updatedAt < now) :
    handleUpdate s now id ⟨none, none, none, none⟩ =
      (⟨200, Body.workout { cur with updatedAt := now }⟩,
       ⟨s.nextID, mapSet s.workouts id { cur with updatedAt := now }⟩) ∧
    cur.updatedAt < ({ cur with updatedAt := now } : Workout).updatedAt := by
  have hmp : mergePatch cur ⟨none, none, none, none⟩ = cur :=
    mergePatch_none_all cur htrimT htrimD
  have h := handleUpdate_valid s now id ⟨none, none, none, none⟩ cur hget
    (by rw [hmp]; exact hval)
  rw [hmp] at h
  exact ⟨h, htime⟩

/-- Witness for C10 on a concrete one-record store. -/
theorem empty_patch_refreshes_updatedAt_witness :
    handleUpdate ⟨2, [(1, ⟨1, "Push", "2025-01-01", "", [], 0, 0⟩)]⟩ 9 1
        ⟨none, none, none, none⟩ =
      (⟨200, Body.workout ⟨1, "Push", "2025-01-01", "", [], 0, 9⟩⟩,
       ⟨2, [(1, ⟨1, "Push", "2025-01-01", "", [], 0, 9⟩)]⟩) ∧
    (0 : Nat) < 9 :=
  empty_patch_refreshes_updatedAt ⟨2, [(1, ⟨1, "Push", "2025-01-01", "", [], 0, 0⟩)]⟩ 9 1
    ⟨1, "Push", "2025-01-01", "", [], 0, 0⟩
    (by decide) (by decide) (by decide) (by decide) (by decide)

/-- C6 counterexample: the candidate with empty title and valid date is
rejected by both paths but with different messages, so the rejected-candidate
messages do not coincide as the claim states. -/
theorem create_update_message_differs :
    createValidationError "" "2025-01-01" [] = some "title is required" ∧
    updateValidationError ⟨1, "", "2025-01-01", "", [], 0, 0⟩ =
      some "title cannot be empty" ∧
    ("title is required" : String) ≠ "title cannot be empty" := by
  refine ⟨by decide, by decide, by decide⟩

/-- C6 amended: create and update validation accept exactly the same
candidates; the rejection messages coincide except when the trimmed title or
the trimmed date is empty (create says `title is required` and
`date is required (YYYY-MM-DD)`, update says `title cannot be empty` and
`date cannot be empty`). -/
theorem create_update_validation_agreement (title date notes : String)
    (exs : List Exercise) (idv : Int) (c u : Nat) :
    ((createValidationError title date exs).isNone ↔
      (updateValidationError ⟨idv, title, date, notes, exs, c, u⟩).isNone) ∧
    (title ≠ "" → date ≠ "" →
      createValidationError title date exs =
        updateValidationError ⟨idv, title, date, notes, exs, c, u⟩) := by
  unfold createValidationError updateValidationError
  by_cases h1 : title = ""
  · simp [h1]
  · by_cases h2 : date = ""
    · simp [h1, h2]
    · by_cases h3 : goParseDate date = false
      · simp [h1, h2, h3]
      · by_cases h4 : validateExercises exs = ""
        · simp [h1, h2, h3, h4]
        · simp [h1, h2, h3, h4]

/-- Witness for the amended C6: a candidate with malformed date draws the very
same message from both paths. -/
theorem create_update_validation_agreement_witness :
    createValidationError "Leg Day" "bad-date" [] =
      updateValidationError ⟨1, "Leg Day", "bad-date", "", [], 0, 0⟩ :=
  (create_update_validation_agreement "Leg Day" "bad-date" "" [] 1 0 0).2
    (by decide) (by decide)

/-- C7 counterexample: a create whose exercise name carries surrounding
whitespace succeeds, and the stored record keeps the name untrimmed, contrary
to the claim that stored exercise names are trimmed. -/
theorem create_stores_untrimmed_exercise_name :
    (handleCreate NewWorkoutStore 5
        ⟨"Leg Day", "2025-01-01", "", [⟨" Squat ", [⟨5, none⟩]⟩]⟩).1.status = 201 ∧
    ((handleCreate NewWorkoutStore 5
        ⟨"Leg Day", "2025-01-01", "", [⟨" Squat ", [⟨5, none⟩]⟩]⟩).2.Get 1).map
      (fun w => w.exercises.map Exercise.name) = some [" Squat "] ∧
    goTrimSpace " Squat " = "Squat" ∧
    (" Squat " : String) ≠ "Squat" := by decide

/-- C7 amended: on a successful create the stored record matches the request
with title, date and notes trimmed and the exercise list carried over
verbatim; exercise names are only validated against their trimmed form (each
trims to a non-empty string) but are stored exactly as submitted. -/
theorem create_fields_trimmed_except_exercise_names (s : WorkoutStore)
    (now : Nat) (req : CreateWorkoutRequest) (created : Workout)
    (s' : WorkoutStore)
    (h : handleCreate s now req = (⟨201, Body.workout created⟩, s')) :
    created.title = goTrimSpace req.title ∧
    created.date = goTrimSpace req.date ∧
    created.notes = goTrimSpace req.notes ∧
    created.exercises = req.exercises ∧
    ∀ ex ∈ created.exercises, goTrimSpace ex.name ≠ "" := by
  simp only [handleCreate] at h
  cases hv : createValidationError (goTrimSpace req.title) (goTrimSpace req.date)
      req.exercises with
  | some msg =>
    rw [hv] at h
    simp at h
  | none =>
    rw [hv] at h
    obtain ⟨-, -, -, h4⟩ := createValidationError_none _ _ _ hv
    simp only [Prod.mk.injEq, Response.mk.injEq, Body.workout.injEq, true_and] at h
    obtain ⟨hcreated, -⟩ := h
    subst hcreated
    refine ⟨rfl, rfl, rfl, rfl, ?_⟩
    intro ex hx
    exact validateExercisesFrom_names req.exercises 0 h4 ex hx

/-- Witness for the amended C7 at a concrete request. -/
theorem create_fields_trimmed_except_exercise_names_witness :
    (⟨1, "Leg Day", "2025-01-01", "", [⟨" Squat ", [⟨5, none⟩]⟩], 5, 5⟩ : Workout).title =
      goTrimSpace " Leg Day " :=
  (create_fields_trimmed_except_exercise_names NewWorkoutStore 5
    ⟨" Leg Day ", "2025-01-01", "", [⟨" Squat ", [⟨5, none⟩]⟩]⟩
    ⟨1, "Leg Day", "2025-01-01", "", [⟨" Squat ", [⟨5, none⟩]⟩], 5, 5⟩
    ⟨2, [(1, ⟨1, "Leg Day", "2025-01-01", "", [⟨" Squat ", [⟨5, none⟩]⟩], 5, 5⟩)]⟩
    (by decide)).1

/-- C8 counterexample: the create-path message for an empty date is
`date is required (YYYY-MM-DD)`, not exactly `date is required` as the claim
states. -/
theorem create_empty_date_message_differs :
    handleCreate NewWorkoutStore 0 ⟨"Leg Day", "", "", []⟩ =
      (⟨400, Body.errorMsg "date is required (YYYY-MM-DD)"⟩, NewWorkoutStore) ∧
    ("date is required (YYYY-MM-DD)" : String) ≠ "date is required" := by decide

/-- C8 amended: on the create path, an empty trimmed date fails with 400 and
exactly the message `date is required (YYYY-MM-DD)`, and a non-empty date that
does not parse as a YYYY-MM-DD calendar date fails with 400 and exactly the
message `date must be YYYY-MM-DD`, with no store write in either case. -/
theorem create_date_error_messages (s : WorkoutStore) (now : Nat)
    (req : CreateWorkoutRequest) (htitle : goTrimSpace req.title ≠ "") :
    (goTrimSpace req.date = "" →
      handleCreate s now req =
        (⟨400, Body.errorMsg "date is required (YYYY-MM-DD)"⟩, s)) ∧
    (goTrimSpace req.date ≠ "" → goParseDate (goTrimSpace req.date) = false →
      handleCreate s now req =
        (⟨400, Body.errorMsg "date must be YYYY-MM-DD"⟩, s)) := by
  constructor
  · intro hd
    have hv : createValidationError (goTrimSpace req.title) (goTrimSpace req.date)
        req.exercises = some "date is required (YYYY-MM-DD)" := by
      unfold createValidationError
      rw [if_neg htitle, if_pos hd]
    simp only [handleCreate, hv]
  · intro hd hp
    have hv : createValidationError (goTrimSpace req.title) (goTrimSpace req.date)
        req.exercises = some "date must be YYYY-MM-DD" := by
      unfold createValidationError
      rw [if_neg htitle, if_neg hd, if_pos hp]
    simp only [handleCreate, hv]

/-- Witness for the amended C8: both failure modes at concrete requests. -/
theorem create_date_error_messages_witness :
    handleCreate NewWorkoutStore 0 ⟨"Leg Day", " ", "", []⟩ =
      (⟨400, Body.errorMsg "date is required (YYYY-MM-DD)"⟩, NewWorkoutStore) ∧
    handleCreate NewWorkoutStore 0 ⟨"Leg Day", "2025-13-40", "", []⟩ =
      (⟨400, Body.errorMsg "date must be YYYY-MM-DD"⟩, NewWorkoutStore) :=
  ⟨(create_date_error_messages NewWorkoutStore 0 ⟨"Leg Day", " ", "", []⟩
      (by decide)).1 (by decide),
   (create_date_error_messages NewWorkoutStore 0 ⟨"Leg Day", "2025-13-40", "", []⟩
      (by decide)).2 (by decide) (by decide)⟩

/-- C9 counterexample: the health handler answers 200 to a POST (to every
method), not 405 as the claim requires for unsupported methods on valid
paths. -/
theorem health_accepts_any_method :
    HealthHandler.serve Method.POST = ⟨200, Body.statusOk⟩ ∧
    (HealthHandler.serve Method.POST).status ≠ 405 :=
  ⟨rfl, by decide⟩

/-- C9 amended: the workouts-collection handler answers 405 to every method
other than GET and POST, and the by-id handler answers 405 on a parsable path
to every method other than GET, PUT and DELETE; the health handler instead
answers 200 to every method. -/
theorem unsupported_method_handling (s : WorkoutStore) (now : Nat) (m : Method)
    (dec : Option CreateWorkoutRequest) (decu : Option UpdateWorkoutRequest)
    (path : String) (id : Int) (hpath : parseWorkoutID path = some id) :
    (m ≠ Method.GET → m ≠ Method.POST →
      (WorkoutsHandler.serve s now m dec).1 =
        ⟨405, Body.errorMsg "Method not allowed"⟩) ∧
    (m ≠ Method.GET → m ≠ Method.PUT → m ≠ Method.DELETE →
      (WorkoutByIDHandler.serve s now path m decu).1 =
        ⟨405, Body.errorMsg "Method not allowed"⟩) ∧
    (HealthHandler.serve m).status = 200 := by
  refine ⟨?_, ?_, rfl⟩
  · intro h1 h2
    cases m
    all_goals first
      | exact absurd rfl h1
      | exact absurd rfl h2
      | rfl
  · intro h1 h2 h3
    cases m
    all_goals first
      | exact absurd rfl h1
      | exact absurd rfl h2
      | exact absurd rfl h3
      | simp [WorkoutByIDHandler.serve, hpath]

/-- Witness for the amended C9 with the PATCH method. -/
theorem unsupported_method_handling_witness :
    (WorkoutsHandler.serve NewWorkoutStore 0 Method.PATCH none).1 =
      ⟨405, Body.errorMsg "Method not allowed"⟩ ∧
    (WorkoutByIDHandler.serve NewWorkoutStore 0 "/workouts/1" Method.PATCH none).1 =
      ⟨405, Body.errorMsg "Method not allowed"⟩ ∧
    (HealthHandler.serve Method.PATCH).status = 200 := by
  have h := unsupported_method_handling NewWorkoutStore 0 Method.PATCH none none
    "/workouts/1" 1 (by decide)
  exact ⟨h.1 (by decide) (by decide), h.2.1 (by decide) (by decide) (by decide), h.2.2⟩

end GymTracker
